import Mathlib

/-!
# Verification of the WAFPierce bypass-detection core

Shallow embedding of `src/wafpierce/pierce.py` and
`src/wafpierce/error_handler.py`: the response classifier (`_is_bypass`),
baseline capture (`scan` / `_get_baseline`), per-variant probing
(`_test_request`), input validation (`_validate_inputs` / `validate_url`),
the retry wrapper (`retry_on_network_error`) and the exception taxonomy
(`exceptions.py`).

Modelling conventions:
* response bodies and headers are ASCII strings; `requests.Response.text`
  (the decoded body) is identified with `Response.content` (the raw bytes),
  and byte size is string length;
* the md5 hex digest is modelled as an injective digest (the identity on the
  content string) - the code only ever compares digests for equality;
* Python float percentages are modelled with exact rationals `ℚ`;
* header maps are association lists.  `requests` response headers are a
  case-insensitive dict (lookups lowercase both sides); the snapshot the
  scanner stores via `dict(baseline.headers)` is a plain dict whose keys keep
  the original casing, so baseline lookups are case-sensitive;
* the network is an oracle mapping the attempt number to the transport
  outcome of that attempt, so retry behaviour is observable.
-/

namespace WAFPierce

/-- Substring occurrence on character lists: `subOccurs ndl hay` is true when
`ndl` occurs contiguously in `hay`.  Models Python's `ndl in hay` on `str`. -/
def subOccurs (ndl : List Char) : List Char → Bool
  | [] => ndl.isEmpty
  | c :: rest => ndl.isPrefixOf (c :: rest) || subOccurs ndl rest

/-- Python `pat in hay` for strings. -/
def strContains (hay pat : String) : Bool :=
  subOccurs pat.data hay.data

/-- Python `str.lower()` (ASCII case folding suffices for the header names and
body indicators the scanner handles). -/
def strLower (s : String) : String :=
  String.mk (s.data.map Char.toLower)

/-- Header maps as association lists (key, value). -/
abbrev Headers := List (String × String)

/-- Membership test of `requests.structures.CaseInsensitiveDict`
(`k in response.headers` lowercases both sides). -/
def ciContains (hs : Headers) (k : String) : Bool :=
  hs.any (fun p => strLower p.1 == strLower k)

/-- Lookup with default of `requests.structures.CaseInsensitiveDict`
(`response.headers.get(k, d)` / `response.headers[k]`). -/
def ciGetD (hs : Headers) (k d : String) : String :=
  match hs.find? (fun p => strLower p.1 == strLower k) with
  | some p => p.2
  | none => d

/-- Plain-`dict` membership (`k in self._baseline_headers`): case-sensitive. -/
def psContains (hs : Headers) (k : String) : Bool :=
  hs.any (fun p => p.1 == k)

/-- Plain-`dict` lookup with default (`self._baseline_headers.get(k, d)`):
case-sensitive. -/
def psGetD (hs : Headers) (k d : String) : String :=
  match hs.find? (fun p => p.1 == k) with
  | some p => p.2
  | none => d

/-- An HTTP response as the classifier sees it: status code, body, headers. -/
structure Response where
  status : Nat
  content : String
  headers : Headers
deriving DecidableEq

/-- Models `response.text`, the decoded body (identified with the raw content). -/
def Response.text (r : Response) : String := r.content

/-- Models `hashlib.md5(content).hexdigest()` as an injective digest of the
content; the code only compares digests for equality. -/
def md5Hex (s : String) : String := s

/-- The baseline snapshot `scan` records (pierce.py lines 145-148):
`_baseline_status`, `_baseline_size`, `_baseline_hash` and
`_baseline_headers = dict(baseline.headers)`.  The `dict(...)` conversion of a
case-insensitive dict keeps the keys' original casing, and later lookups into
it are plain case-sensitive dict lookups. -/
structure Baseline where
  status : Nat
  size : Nat
  hash : String
  headers : Headers
deriving DecidableEq

/-- Baseline capture from the baseline response (pierce.py lines 145-148). -/
def mkBaseline (resp : Response) : Baseline :=
  { status := resp.status
    size := resp.content.length
    hash := md5Hex resp.content
    headers := resp.headers }

/-- The classifier verdict `{bypass, reason, severity}` (severities are the
literal strings the code uses). -/
structure Classification where
  bypass : Bool
  reason : String
  severity : String
deriving DecidableEq

/-- Embeds `size_diff = abs(current_size - baseline_size)` (pierce.py line 306). -/
def sizeDiff (b : Baseline) (r : Response) : Nat :=
  ((r.content.length : Int) - (b.size : Int)).natAbs

/-- Embeds `size_diff_percent = (size_diff / baseline_size) * 100 if baseline_size > 0
else 0` (pierce.py line 307), with exact rational arithmetic. -/
def sizeDiffPercent (b : Baseline) (r : Response) : ℚ :=
  if b.size > 0 then ((sizeDiff b r : ℚ) / (b.size : ℚ)) * 100 else 0

/-- Rule 2 (pierce.py lines 309-315): baseline blocked (403/401) and the
probe got 200. -/
def authRule (b : Baseline) (r : Response) : Option Classification :=
  if (b.status = 403 ∨ b.status = 401) ∧ r.status = 200 then
    some { bypass := true
           reason := "Authentication bypass: " ++ toString b.status ++ " → " ++ toString r.status
           severity := "CRITICAL" }
  else none

/-- Models Python's one-decimal percent formatting, a decimal rendering of the
percentage to one fractional digit (used only inside the rule-3 reason
string). -/
def fmtPercent (q : ℚ) : String :=
  let t : Int := round (q * 10)
  toString (t / 10) ++ "." ++ toString (t % 10)

/-- Rule 3 (pierce.py lines 317-323): size difference above 10 percent. -/
def sizeRule (b : Baseline) (r : Response) : Option Classification :=
  if sizeDiffPercent b r > 10 then
    some { bypass := true
           reason := "Content difference: " ++ toString (sizeDiff b r) ++ " bytes ("
                       ++ fmtPercent (sizeDiffPercent b r) ++ "% change)"
           severity := "HIGH" }
  else none

/-- Rule 4 (pierce.py lines 325-331): hash mismatch with size delta above
100 bytes. -/
def hashRule (b : Baseline) (r : Response) : Option Classification :=
  if md5Hex r.content ≠ b.hash ∧ sizeDiff b r > 100 then
    some { bypass := true
           reason := "Different content returned (hash mismatch)"
           severity := "HIGH" }
  else none

/-- The `error_indicators` array in its exact source order
(pierce.py lines 334-351). -/
def errorIndicators : List (String × String) :=
  [("exception", "CRITICAL"),
   ("traceback", "CRITICAL"),
   ("stack trace", "CRITICAL"),
   ("sql syntax", "CRITICAL"),
   ("mysql_", "CRITICAL"),
   ("postgresql", "CRITICAL"),
   ("ora-", "CRITICAL"),
   ("internal server error", "HIGH"),
   ("500 internal", "HIGH"),
   ("apache/", "MEDIUM"),
   ("nginx/", "MEDIUM"),
   ("iis/", "MEDIUM"),
   ("tomcat/", "MEDIUM"),
   ("debug mode", "HIGH"),
   ("fatal error", "HIGH"),
   ("warning:", "MEDIUM")]

/-- The rule-5 scanning loop (pierce.py lines 353-360): first indicator found
in the lowercased body wins. -/
def scanIndicators (bodyLower : String) : List (String × String) → Option Classification
  | [] => none
  | (ind, sev) :: rest =>
      if strContains bodyLower ind then
        some { bypass := true
               reason := "Backend exposed: \"" ++ ind ++ "\" found in response"
               severity := sev }
      else scanIndicators bodyLower rest

/-- Rule 5: backend-exposure substrings in the response body. -/
def indicatorRule (r : Response) : Option Classification :=
  scanIndicators (strLower r.text) errorIndicators

/-- The `backend_servers` list (pierce.py line 365). -/
def backendServers : List String :=
  ["apache", "nginx", "iis", "tomcat", "jetty", "gunicorn", "uwsgi"]

/-- The rule-6 loop body (pierce.py lines 366-372): first backend name that is
in the response `Server` value but not in the baseline's. -/
def scanBackends (server baseServer rawServer : String) : List String → Option Classification
  | [] => none
  | bk :: rest =>
      if strContains server bk ∧ ¬ strContains baseServer bk then
        some { bypass := true
               reason := "Backend server exposed: " ++ rawServer
               severity := "MEDIUM" }
      else scanBackends server baseServer rawServer rest

/-- Rule 6 (pierce.py lines 362-372): backend server name exposed in the
`Server` header.  The response lookup is case-insensitive (requests dict); the
baseline lookup `self._baseline_headers.get('server', '')` is a plain dict
lookup. -/
def serverRule (b : Baseline) (r : Response) : Option Classification :=
  if ciContains r.headers "server" then
    scanBackends (strLower (ciGetD r.headers "server" ""))
      (strLower (psGetD b.headers "server" ""))
      (ciGetD r.headers "server" "") backendServers
  else none

/-- Rule 7 (pierce.py lines 374-381): `X-Powered-By` in the response
(case-insensitive lookup) but `'x-powered-by'` not a key of the plain baseline
dict (case-sensitive). -/
def poweredByRule (b : Baseline) (r : Response) : Option Classification :=
  if ciContains r.headers "x-powered-by" ∧ ¬ psContains b.headers "x-powered-by" then
    some { bypass := true
           reason := "Backend tech exposed: " ++ ciGetD r.headers "x-powered-by" ""
           severity := "MEDIUM" }
  else none

/-- Rule 8 (pierce.py lines 383-392): redirect whose non-empty `Location`
differs from the baseline's stored location. -/
def redirectRule (b : Baseline) (r : Response) : Option Classification :=
  if r.status = 301 ∨ r.status = 302 ∨ r.status = 307 ∨ r.status = 308 then
    let baselineLocation := psGetD b.headers "location" ""
    let currentLocation := ciGetD r.headers "location" ""
    if currentLocation ≠ "" ∧ currentLocation ≠ baselineLocation then
      some { bypass := true
             reason := "Different redirect: " ++ currentLocation
             severity := "MEDIUM" }
    else none
  else none

/-- Embeds `_is_bypass` (pierce.py lines 293-399), called with a baseline
established.  Rule 1 (status >= 400) short-circuits; then the rules 2-8 fire
in order as an early-return chain; otherwise rule 9 reports no bypass.  The
function is pure, so the `except` fallback of the source (lines 397-399) has
no reachable counterpart here. -/
def isBypass (b : Baseline) (r : Response) : Classification :=
  if r.status ≥ 400 then
    { bypass := false, reason := "Blocked: " ++ toString r.status, severity := "INFO" }
  else
    match authRule b r <|> sizeRule b r <|> hashRule b r <|> indicatorRule r
        <|> serverRule b r <|> poweredByRule b r <|> redirectRule b r with
    | some c => c
    | none => { bypass := false, reason := "Response identical to baseline", severity := "INFO" }

/-! ## Exception taxonomy and transport model -/

/-- Raw `requests` transport failures, as `handle_request_errors` inspects
them (error_handler.py lines 76-148): connection errors carry their message
text, HTTP errors carry the response status. -/
inductive TransportExc where
  | connectionError (msg : String)
  | timeout
  | sslError
  | tooManyRedirects
  | httpError (status : Nat)
  | otherFailure (msg : String)
deriving DecidableEq

/-- The WAFPierce exception kinds relevant to the core (exceptions.py). -/
inductive Exc where
  | targetUnreachable
  | requestTimeout
  | sslError
  | dnsResolution
  | tooManyRedirects
  | proxyError
  | rateLimit
  | networkError
  | invalidTarget
  | invalidScheme
  | baselineFailed
  | scanInterrupted
  | invalidThreadCount
  | invalidDelay
  | invalidTimeout
deriving DecidableEq

deriving instance DecidableEq for Except

/-- Models `isinstance(e, NetworkError)` per the class hierarchy of exceptions.py:
the network kinds subclass `NetworkError`; note `RateLimitError` subclasses
`ScanError`, not `NetworkError`. -/
def isNetworkError : Exc → Bool
  | .targetUnreachable => true
  | .requestTimeout => true
  | .sslError => true
  | .dnsResolution => true
  | .tooManyRedirects => true
  | .proxyError => true
  | .networkError => true
  | _ => false

/-- Embeds `handle_request_errors` (error_handler.py lines 76-148): classify a raw
transport failure into the taxonomy by inspecting its text/status. -/
def handleRequestErrors (exc : TransportExc) : Exc :=
  match exc with
  | .connectionError msg =>
      let m := strLower msg
      if strContains m "name or service not known" ∨ strContains m "nodename nor servname" then
        .dnsResolution
      else if strContains m "certificate verify failed" then .sslError
      else if strContains m "proxy" then .proxyError
      else .targetUnreachable
  | .timeout => .requestTimeout
  | .sslError => .sslError
  | .tooManyRedirects => .tooManyRedirects
  | .httpError status => if status = 429 then .rateLimit else .networkError
  | .otherFailure _ => .networkError

/-- Embeds `safe_request` (error_handler.py lines 151-214) applied to one transport
outcome: pass a response through, map a failure through
`handle_request_errors` and raise the result.  There is no retry here. -/
def safeRequest (attempt : Except TransportExc Response) : Except Exc Response :=
  match attempt with
  | .ok r => .ok r
  | .error te => .error (handleRequestErrors te)

/-! ## Retry wrapper -/

/-- Outcome of a `retry_on_network_error`-wrapped call: a returned value, a
re-raised exception, or the `raise None` reached when `max_retries = 0`
(the loop never runs and `last_exception` is still `None`). -/
inductive RetryResult (ε α : Type) where
  | ok : α → RetryResult ε α
  | raised : ε → RetryResult ε α
  | raisedNone : RetryResult ε α
deriving DecidableEq

/-- The loop of `retry_on_network_error` (error_handler.py lines 50-70).
`f n` is the outcome of invocation number `n` (0-based); `fuel` counts the
remaining loop iterations, so `attempt + fuel = maxRetries` at every call.
Returns the final outcome together with the list of backoff waits performed
(`backoff * 2 ^ attempt` before each non-final retry).  A failure not in the
retryable set propagates immediately. -/
def retryAux {ε α : Type} (f : Nat → Except ε α) (retryable : ε → Bool) (backoff : ℚ)
    (maxRetries : Nat) : Nat → Nat → Option ε → RetryResult ε α × List ℚ
  | _, 0, last =>
      (match last with
       | some e => .raised e
       | none => .raisedNone, [])
  | attempt, fuel + 1, _ =>
      match f attempt with
      | .ok a => (.ok a, [])
      | .error e =>
          if retryable e then
            let waitHere : List ℚ := if attempt < maxRetries - 1 then [backoff * 2 ^ attempt] else []
            let rest := retryAux f retryable backoff maxRetries (attempt + 1) fuel (some e)
            (rest.1, waitHere ++ rest.2)
          else (.raised e, [])

/-- Embeds `retry_on_network_error(max_retries, backoff_factor, exceptions)` applied
to a callable whose invocation outcomes are `f`. -/
def retryCall {ε α : Type} (f : Nat → Except ε α) (retryable : ε → Bool) (backoff : ℚ)
    (maxRetries : Nat) : RetryResult ε α × List ℚ :=
  retryAux f retryable backoff maxRetries 0 maxRetries none

/-! ## Baseline capture and per-variant probing -/

/-- Embeds `_get_baseline` (pierce.py lines 216-236): `safe_request` under
`@retry_on_network_error(max_retries=3, backoff_factor=0.5)` with the default
retryable set `(NetworkError,)`.  `attempts n` is the transport outcome of
attempt `n`. -/
def getBaseline (attempts : Nat → Except TransportExc Response) :
    RetryResult Exc Response × List ℚ :=
  retryCall (fun n => safeRequest (attempts n)) isNetworkError (1 / 2 : ℚ) 3

/-- The baseline phase of `scan` (pierce.py lines 136-165).  A response that
is not "usable" (`if not baseline:` - `requests.Response` truthiness is
`status < 400`) raises `BaselineFailedError`; `BaselineFailedError` and
`TargetUnreachableError` re-raise unchanged; any other exception is wrapped
into `BaselineFailedError`. -/
def scanBaselinePhase (attempts : Nat → Except TransportExc Response) : Except Exc Baseline :=
  match (getBaseline attempts).1 with
  | .ok resp => if resp.status < 400 then .ok (mkBaseline resp) else .error .baselineFailed
  | .raised e =>
      match e with
      | .baselineFailed => .error .baselineFailed
      | .targetUnreachable => .error .targetUnreachable
      | _ => .error .baselineFailed
  | .raisedNone => .error .baselineFailed

/-- One probe variant: request headers (carrying the `X-Technique` label),
HTTP method and path. -/
structure Variant where
  headers : Headers
  method : String
  path : String
deriving DecidableEq

/-- The result dictionary `_test_request` builds (pierce.py lines 277-287). -/
structure ProbeResult where
  bypass : Bool
  status : Nat
  headers : Headers
  method : String
  path : String
  size : Nat
  technique : String
  reason : String
  severity : String
deriving DecidableEq

/-- Embeds `_test_request` (pierce.py lines 238-291): a single `safe_request` call
(no retry wrapper), classification on success, and `None` on any failure
(the inner `except Exception` and the `GracefulErrorHandler` both swallow
the error).  `attempts` is the per-attempt transport oracle of this variant;
only attempt 0 is ever issued. -/
def testRequest (b : Baseline) (v : Variant)
    (attempts : Nat → Except TransportExc Response) : Option ProbeResult :=
  match safeRequest (attempts 0) with
  | .error _ => none
  | .ok resp =>
      let c := isBypass b resp
      some { bypass := c.bypass
             status := resp.status
             headers := v.headers
             method := v.method
             path := v.path
             size := resp.content.length
             technique := if v.headers.isEmpty then "Unknown" else psGetD v.headers "X-Technique" "Unknown"
             reason := c.reason
             severity := c.severity }

/-- One technique function's loop (e.g. pierce.py lines 401-420): test each
variant in order and keep only the results whose `bypass` is true. -/
def runTechnique (b : Baseline) (env : Variant → Nat → Except TransportExc Response)
    (variants : List Variant) : List ProbeResult :=
  (variants.filterMap (fun v => testRequest b v (env v))).filter (fun res => res.bypass)

/-- The aggregation of `scan` (pierce.py lines 186-214): the session results
are the technique outputs collected together (completion order is irrelevant
to membership, so the collection is modelled as the concatenation). -/
def scanResults (b : Baseline) (env : Variant → Nat → Except TransportExc Response)
    (techniques : List (List Variant)) : List ProbeResult :=
  (techniques.map (runTechnique b env)).flatten

/-! ## Input validation -/

/-- A parsed target URL: `urlparse` scheme and netloc. -/
structure Url where
  scheme : String
  netloc : String
deriving DecidableEq

/-- Embeds `validate_url` (error_handler.py lines 258-285): `(is_valid, error)`
checking scheme presence, scheme membership in {http, https}, then host
presence - in that order. -/
def validateUrl (u : Url) : Bool × Option String :=
  if u.scheme = "" then
    (false, some "URL must include scheme (http:// or https://)")
  else if ¬ (u.scheme = "http" ∨ u.scheme = "https") then
    (false, some ("Invalid scheme '" ++ u.scheme ++ "'. Must be http or https"))
  else if u.netloc = "" then
    (false, some "URL must include domain/host")
  else (true, none)

/-- Embeds `_validate_inputs` (pierce.py lines 84-118): `validate_url` first (its
failure raises `InvalidTargetError`), then the dedicated scheme check
(`InvalidSchemeError`), then thread count, delay and timeout. -/
def validateInputs (u : Url) (threads : Int) (delay : ℚ) (timeout : ℚ) : Except Exc Unit :=
  if (validateUrl u).1 = false then .error .invalidTarget
  else if ¬ (u.scheme = "http" ∨ u.scheme = "https") then .error .invalidScheme
  else if threads ≤ 0 then .error .invalidThreadCount
  else if delay < 0 then .error .invalidDelay
  else if timeout ≤ 0 then .error .invalidTimeout
  else .ok ()

/-! ## Concrete scenario inputs used by counterexamples and witnesses -/

/-- A 200 response whose body holds both "debug mode" (HIGH in the spec's
table) and "apache/" (MEDIUM), and no earlier indicator. -/
def c1Response : Response := ⟨200, "debug mode apache/2.4", []⟩

/-- Baseline captured from the same response, so rules 1-4 cannot match. -/
def c1Baseline : Baseline := mkBaseline c1Response

/-- Scenario A baseline: a 403 with 512 bytes. -/
def scenarioABaseline : Baseline := ⟨403, 512, "h0", []⟩

/-- Scenario A probe: a 200 of 520 bytes. -/
def scenarioAResponse : Response := ⟨200, String.mk (List.replicate 520 'a'), []⟩

/-- A baseline response carrying `X-Powered-By` under its usual casing. -/
def c3BaselineResponse : Response := ⟨200, "ok", [("X-Powered-By", "PHP/7.4.3")]⟩

/-- The successful response a later attempt would have returned. -/
def c4SuccessResponse : Response := ⟨200, "welcome", []⟩

/-- A transport that refuses the connection on attempt 0 and succeeds from
attempt 1 on - inside the baseline retry bound of 3. -/
def c4Attempts : Nat → Except TransportExc Response
  | 0 => .error (.connectionError "connection refused")
  | _ + 1 => .ok c4SuccessResponse

/-- An X-Forwarded-For probe variant. -/
def c4Variant : Variant :=
  ⟨[("X-Forwarded-For", "127.0.0.1"), ("X-Technique", "X-Forwarded-For: 127.0.0.1")], "GET", "/"⟩

/-- A blocked-target baseline for the variant probes. -/
def c4Baseline : Baseline := ⟨403, 7, "h", []⟩

/-- A transport whose every attempt is refused (connection refused). -/
def c5RefusedAttempts : Nat → Except TransportExc Response :=
  fun _ => .error (.connectionError "connection refused")

/-- A transport whose every attempt times out. -/
def c5TimeoutAttempts : Nat → Except TransportExc Response :=
  fun _ => .error .timeout

/-- The failure each timed-out attempt raised. -/
def c5TimeoutFailures : Nat → TransportExc := fun _ => .timeout

/-- The URL `ftp://example.com`: a host and a scheme, but not http(s). -/
def c6FtpUrl : Url := ⟨"ftp", "example.com"⟩

/-- The URL `http://` with no host. -/
def c6NoHostUrl : Url := ⟨"http", ""⟩

/-- The value the retried callable eventually returns. -/
def c7Response : Response := ⟨200, "hello", []⟩

/-- A callable failing with retryable network errors on invocations 0 and 1
and succeeding from invocation 2 on. -/
def c7FlakyCalls : Nat → Except Exc Response
  | 0 => .error .requestTimeout
  | 1 => .error .targetUnreachable
  | _ + 2 => .ok c7Response

/-- The errors of the flaky callable's failing invocations. -/
def c7FlakyErrs : Nat → Exc :=
  fun n => if n = 0 then .requestTimeout else .targetUnreachable

/-- The errors of a callable that fails on every invocation. -/
def c7FailErrs : Nat → Exc :=
  fun n => if n = 0 then .requestTimeout else .targetUnreachable

/-- A callable failing with a retryable network error on every invocation. -/
def c7FailCalls : Nat → Except Exc Response := fun n => .error (c7FailErrs n)

/-- A baseline whose stored location is non-empty (lowercased key, so even a
case-sensitive lookup finds it). -/
def c8Baseline : Baseline := ⟨200, 0, "", [("location", "http://internal.example/")]⟩

/-- A 301 redirect response carrying no `Location` header at all. -/
def c8Response : Response := ⟨301, "", []⟩

/-- Baseline for the amended redirect rule's witness. -/
def c8WitBaseline : Baseline := ⟨200, 0, "", [("location", "http://a.example/")]⟩

/-- A 302 response redirecting somewhere else than the baseline did. -/
def c8WitResponse : Response := ⟨302, "", [("Location", "http://b.example/")]⟩

/-- A blocked baseline for the scan-results invariant witness. -/
def c9Baseline : Baseline := ⟨403, 100, "h", []⟩

/-- The 200 response every probe of the witness environment receives. -/
def c9Response : Response := ⟨200, "hi", []⟩

/-- A network environment answering every variant's first attempt. -/
def c9Env : Variant → Nat → Except TransportExc Response := fun _ _ => .ok c9Response

/-- A host-header-injection variant. -/
def c9Variant : Variant :=
  ⟨[("X-Technique", "Host Header Injection: localhost"), ("Host", "localhost")], "GET", "/"⟩

/-- The probe result the witness environment produces for `c9Variant`. -/
def c9Result : ProbeResult :=
  ⟨true, 200, c9Variant.headers, "GET", "/", 2, "Host Header Injection: localhost",
   "Authentication bypass: 403 → 200", "CRITICAL"⟩

/-- A single-technique catalog holding just `c9Variant`. -/
def c9Techniques : List (List Variant) := [[c9Variant]]

/-- A zero-byte baseline. -/
def c10Baseline : Baseline := ⟨200, 0, "", []⟩

/-- An arbitrary 200 probe response against the zero-byte baseline. -/
def c10Response : Response := ⟨200, "x", []⟩

/-! ## Helper lemmas -/

theorem str_append_ne_empty (s t : String) (h : s ≠ "") : s ++ t ≠ "" := by
  intro hc
  apply h
  have hd := congrArg String.data hc
  rw [String.data_append] at hd
  exact String.ext (List.append_eq_nil.mp hd).1

theorem sizeDiffPercent_of_diff_zero (b : Baseline) (r : Response) (h : sizeDiff b r = 0) :
    sizeDiffPercent b r = 0 := by
  unfold sizeDiffPercent
  rw [h]
  simp

theorem sizeRule_none_of_diff_zero (b : Baseline) (r : Response) (h : sizeDiff b r = 0) :
    sizeRule b r = none := by
  unfold sizeRule
  rw [if_neg]
  rw [sizeDiffPercent_of_diff_zero b r h]
  norm_num

theorem authRule_some (b : Baseline) (r : Response) (c : Classification)
    (h : authRule b r = some c) :
    c = ⟨true, "Authentication bypass: " ++ toString b.status ++ " → " ++ toString r.status,
         "CRITICAL"⟩ := by
  unfold authRule at h
  split at h
  · exact (Option.some.inj h).symm
  · exact Option.noConfusion h

theorem sizeRule_some (b : Baseline) (r : Response) (c : Classification)
    (h : sizeRule b r = some c) :
    c = ⟨true, "Content difference: " ++ toString (sizeDiff b r) ++ " bytes ("
          ++ fmtPercent (sizeDiffPercent b r) ++ "% change)", "HIGH"⟩ := by
  unfold sizeRule at h
  split at h
  · exact (Option.some.inj h).symm
  · exact Option.noConfusion h

theorem hashRule_some (b : Baseline) (r : Response) (c : Classification)
    (h : hashRule b r = some c) :
    c = ⟨true, "Different content returned (hash mismatch)", "HIGH"⟩ := by
  unfold hashRule at h
  split at h
  · exact (Option.some.inj h).symm
  · exact Option.noConfusion h

theorem scanIndicators_some (body : String) (l : List (String × String)) (c : Classification)
    (h : scanIndicators body l = some c) :
    c.bypass = true ∧ c.reason ≠ "" ∧ c.severity ∈ l.map Prod.snd := by
  induction l with
  | nil => exact Option.noConfusion h
  | cons p rest ih =>
      obtain ⟨ind, sev⟩ := p
      simp only [scanIndicators] at h
      split at h
      · have hc := (Option.some.inj h).symm
        subst hc
        refine ⟨rfl, ?_, by simp⟩
        exact str_append_ne_empty _ _ (str_append_ne_empty _ _ (by decide))
      · obtain ⟨h1, h2, h3⟩ := ih h
        exact ⟨h1, h2, by simpa using Or.inr (by simpa using h3)⟩

theorem indicatorRule_some (r : Response) (c : Classification)
    (h : indicatorRule r = some c) :
    c.bypass = true ∧ c.reason ≠ "" ∧ c.severity ∈ ["CRITICAL", "HIGH", "MEDIUM"] := by
  obtain ⟨h1, h2, h3⟩ := scanIndicators_some _ _ _ h
  refine ⟨h1, h2, ?_⟩
  have hall : ∀ x ∈ errorIndicators.map Prod.snd, x ∈ ["CRITICAL", "HIGH", "MEDIUM"] := by decide
  exact hall _ h3

theorem scanBackends_some (server baseServer rawServer : String) (l : List String)
    (c : Classification) (h : scanBackends server baseServer rawServer l = some c) :
    c = ⟨true, "Backend server exposed: " ++ rawServer, "MEDIUM"⟩ := by
  induction l with
  | nil => exact Option.noConfusion h
  | cons bk rest ih =>
      simp only [scanBackends] at h
      split at h
      · exact (Option.some.inj h).symm
      · exact ih h

theorem serverRule_some (b : Baseline) (r : Response) (c : Classification)
    (h : serverRule b r = some c) :
    c = ⟨true, "Backend server exposed: " ++ ciGetD r.headers "server" "", "MEDIUM"⟩ := by
  unfold serverRule at h
  split at h
  · exact scanBackends_some _ _ _ _ _ h
  · exact Option.noConfusion h

theorem poweredByRule_some (b : Baseline) (r : Response) (c : Classification)
    (h : poweredByRule b r = some c) :
    c = ⟨true, "Backend tech exposed: " ++ ciGetD r.headers "x-powered-by" "", "MEDIUM"⟩ := by
  unfold poweredByRule at h
  split at h
  · exact (Option.some.inj h).symm
  · exact Option.noConfusion h

theorem redirectRule_some (b : Baseline) (r : Response) (c : Classification)
    (h : redirectRule b r = some c) :
    c = ⟨true, "Different redirect: " ++ ciGetD r.headers "location" "", "MEDIUM"⟩ := by
  unfold redirectRule at h
  split at h
  · dsimp only at h
    split at h
    · exact (Option.some.inj h).symm
    · exact Option.noConfusion h
  · exact Option.noConfusion h

theorem isBypass_fields (b : Baseline) (r : Response) :
    (isBypass b r).severity ∈ ["CRITICAL", "HIGH", "MEDIUM", "INFO"] ∧
    ((isBypass b r).bypass = true → (isBypass b r).reason ≠ "") := by
  unfold isBypass
  split
  · exact ⟨by simp, fun hb => absurd hb (by simp)⟩
  cases h2 : authRule b r with
  | some c =>
      simp only [h2, Option.some_orElse]
      obtain rfl := authRule_some b r c h2
      exact ⟨by simp, fun _ =>
        str_append_ne_empty _ _ (str_append_ne_empty _ _ (str_append_ne_empty _ _ (by decide)))⟩
  | none =>
  simp only [h2, Option.none_orElse]
  cases h3 : sizeRule b r with
  | some c =>
      simp only [h3, Option.some_orElse]
      obtain rfl := sizeRule_some b r c h3
      exact ⟨by simp, fun _ =>
        str_append_ne_empty _ _ (str_append_ne_empty _ _ (str_append_ne_empty _ _
          (str_append_ne_empty _ _ (by decide))))⟩
  | none =>
  simp only [h3, Option.none_orElse]
  cases h4 : hashRule b r with
  | some c =>
      simp only [h4, Option.some_orElse]
      obtain rfl := hashRule_some b r c h4
      exact ⟨by simp, fun _ => by decide⟩
  | none =>
  simp only [h4, Option.none_orElse]
  cases h5 : indicatorRule r with
  | some c =>
      simp only [h5, Option.some_orElse]
      obtain ⟨-, hr, hs⟩ := indicatorRule_some r c h5
      have : ∀ x ∈ (["CRITICAL", "HIGH", "MEDIUM"] : List String),
          x ∈ (["CRITICAL", "HIGH", "MEDIUM", "INFO"] : List String) := by decide
      exact ⟨this _ hs, fun _ => hr⟩
  | none =>
  simp only [h5, Option.none_orElse]
  cases h6 : serverRule b r with
  | some c =>
      simp only [h6, Option.some_orElse]
      obtain rfl := serverRule_some b r c h6
      exact ⟨by simp, fun _ => str_append_ne_empty _ _ (by decide)⟩
  | none =>
  simp only [h6, Option.none_orElse]
  cases h7 : poweredByRule b r with
  | some c =>
      simp only [h7, Option.some_orElse]
      obtain rfl := poweredByRule_some b r c h7
      exact ⟨by simp, fun _ => str_append_ne_empty _ _ (by decide)⟩
  | none =>
  simp only [h7, Option.none_orElse]
  cases h8 : redirectRule b r with
  | some c =>
      simp only [h8, Option.some_orElse]
      obtain rfl := redirectRule_some b r c h8
      exact ⟨by simp, fun _ => str_append_ne_empty _ _ (by decide)⟩
  | none =>
      simp only [h8]
      exact ⟨by simp, fun hb => absurd hb (by simp)⟩

theorem scanIndicators_skip (body : String) (l1 l2 : List (String × String))
    (h : ∀ p ∈ l1, strContains body p.1 = false) :
    scanIndicators body (l1 ++ l2) = scanIndicators body l2 := by
  induction l1 with
  | nil => rfl
  | cons p rest ih =>
      obtain ⟨ind, sev⟩ := p
      simp only [List.cons_append, scanIndicators]
      rw [h (ind, sev) (by simp)]
      simp only [Bool.false_eq_true, if_false]
      exact ih (fun q hq => h q (List.mem_cons_of_mem _ hq))

/-! ## Claim theorems -/

/-- C2: whenever the baseline status is 401 or 403 and the response status is
200, `classify` returns bypass=true with severity CRITICAL (and the rule-2
reason), regardless of the response's size, hash, body or headers - rule 2 is
checked before the size rule, so it dominates rule 3. -/
theorem c2_auth_bypass_critical (b : Baseline) (r : Response)
    (hb : b.status = 401 ∨ b.status = 403) (hr : r.status = 200) :
    isBypass b r =
      ⟨true, "Authentication bypass: " ++ toString b.status ++ " → " ++ toString r.status,
       "CRITICAL"⟩ := by
  have h1 : ¬ r.status ≥ 400 := by omega
  have ha : authRule b r =
      some ⟨true, "Authentication bypass: " ++ toString b.status ++ " → " ++ toString r.status,
            "CRITICAL"⟩ := by
    unfold authRule
    rw [if_pos ⟨hb.symm, hr⟩]
  simp only [isBypass, if_neg h1, ha, Option.some_orElse]

theorem c2_auth_bypass_critical_witness :
    (scenarioABaseline.status = 401 ∨ scenarioABaseline.status = 403) ∧
    scenarioAResponse.status = 200 ∧
    isBypass scenarioABaseline scenarioAResponse =
      ⟨true, "Authentication bypass: " ++ toString scenarioABaseline.status ++ " → "
        ++ toString scenarioAResponse.status, "CRITICAL"⟩ :=
  ⟨Or.inr rfl, rfl, c2_auth_bypass_critical _ _ (Or.inr rfl) rfl⟩

/-- C10: the size-percentage division is guarded - on a zero-byte baseline
the percentage is defined as 0, so the rule-3 size check can never fire.
(`classify` is a total Lean function by construction; the source's
`except`-fallback returning the 'Detection error' INFO verdict has no
reachable counterpart in this pure embedding.) -/
theorem c10_zero_size_guard (b : Baseline) (r : Response) (h : b.size = 0) :
    sizeDiffPercent b r = 0 ∧ sizeRule b r = none := by
  have hp : sizeDiffPercent b r = 0 := by
    unfold sizeDiffPercent
    rw [h]
    simp
  refine ⟨hp, ?_⟩
  unfold sizeRule
  rw [if_neg]
  rw [hp]
  norm_num

theorem c10_zero_size_guard_witness :
    c10Baseline.size = 0 ∧
    (sizeDiffPercent c10Baseline c10Response = 0 ∧ sizeRule c10Baseline c10Response = none) :=
  ⟨rfl, c10_zero_size_guard c10Baseline c10Response rfl⟩

/-- C6: contrary to the claim, a URL with a host and a non-http(s) scheme
(ftp://example.com) makes `_validate_inputs` raise `InvalidTargetError`, not
`InvalidSchemeError`: `validate_url` already rejects the scheme and its
failure is mapped to `InvalidTargetError` before the dedicated
`InvalidSchemeError` check is reached (that branch is dead code).  The second
half of the claim holds: a URL with no host yields `InvalidTargetError`. -/
theorem c6_scheme_validation_code_bug :
    validateInputs c6FtpUrl 10 0 5 = .error .invalidTarget ∧
    validateInputs c6FtpUrl 10 0 5 ≠ .error .invalidScheme ∧
    validateInputs c6NoHostUrl 10 0 5 = .error .invalidTarget := by
  refine ⟨?_, ?_, ?_⟩ <;> decide

/-- C3: contrary to the claim, the baseline header snapshot
`dict(baseline.headers)` keeps the original header casing, and the
classifier's case-sensitive lowercase lookups miss it: with a baseline
response that carried `X-Powered-By` (usual casing) and an identical probe
response, rule 7 *does* report a MEDIUM bypass. -/
theorem c3_baseline_header_casing_code_bug :
    ciContains c3BaselineResponse.headers "x-powered-by" = true ∧
    isBypass (mkBaseline c3BaselineResponse) c3BaselineResponse =
      ⟨true, "Backend tech exposed: PHP/7.4.3", "MEDIUM"⟩ := by
  constructor
  · decide
  · have hs : sizeRule (mkBaseline c3BaselineResponse) c3BaselineResponse = none :=
      sizeRule_none_of_diff_zero _ _ (by decide)
    simp only [isBypass, hs]
    decide

/-- C1 (counterexample): a response whose body holds both "debug mode" and
"apache/" and no CRITICAL indicator, with rules 1-4 not matching, is
classified MEDIUM (the code's list places "apache/" before "debug mode"), not
HIGH as the claim states. -/
theorem c1_indicator_order_counterexample :
    strContains (strLower c1Response.text) "debug mode" = true ∧
    strContains (strLower c1Response.text) "apache/" = true ∧
    (∀ p ∈ errorIndicators, p.2 = "CRITICAL" → strContains (strLower c1Response.text) p.1 = false) ∧
    c1Response.status < 400 ∧
    authRule c1Baseline c1Response = none ∧
    sizeRule c1Baseline c1Response = none ∧
    hashRule c1Baseline c1Response = none ∧
    (isBypass c1Baseline c1Response).severity = "MEDIUM" ∧
    (isBypass c1Baseline c1Response).severity ≠ "HIGH" := by
  have hs : sizeRule c1Baseline c1Response = none := sizeRule_none_of_diff_zero _ _ (by decide)
  refine ⟨by decide, by decide, by decide, by decide, by decide, hs, by decide, ?_, ?_⟩ <;>
    simp only [isBypass, hs] <;> decide

/-- C1 (amended): the indicator list is scanned in the code's order -
the CRITICAL substrings, then "internal server error" and "500 internal",
then "apache/", "nginx/", "iis/", "tomcat/", then "debug mode" and
"fatal error", and finally "warning:" - and the first substring found
determines the result; in particular a response body containing "apache/"
but none of the nine substrings preceding it, when rules 1-4 do not match,
is classified bypass=true with severity MEDIUM (so a body holding both
"debug mode" and "apache/" gets MEDIUM, not HIGH). -/
theorem c1_indicator_order_amended (b : Baseline) (r : Response)
    (h400 : r.status < 400)
    (h2 : authRule b r = none) (h3 : sizeRule b r = none) (h4 : hashRule b r = none)
    (hpre : ∀ p ∈ errorIndicators.take 9, strContains (strLower r.text) p.1 = false)
    (hap : strContains (strLower r.text) "apache/" = true) :
    isBypass b r = ⟨true, "Backend exposed: \"apache/\" found in response", "MEDIUM"⟩ := by
  have h1 : ¬ r.status ≥ 400 := by omega
  have h5 : indicatorRule r =
      some ⟨true, "Backend exposed: \"apache/\" found in response", "MEDIUM"⟩ := by
    unfold indicatorRule
    rw [show errorIndicators = errorIndicators.take 9 ++ errorIndicators.drop 9 from
      (List.take_append_drop 9 errorIndicators).symm]
    rw [scanIndicators_skip _ _ _ hpre]
    rw [show errorIndicators.drop 9 =
      [("apache/", "MEDIUM"), ("nginx/", "MEDIUM"), ("iis/", "MEDIUM"), ("tomcat/", "MEDIUM"),
       ("debug mode", "HIGH"), ("fatal error", "HIGH"), ("warning:", "MEDIUM")] from rfl]
    simp only [scanIndicators]
    rw [hap]
    simp
  simp only [isBypass, if_neg h1, h2, h3, h4, Option.none_orElse, h5, Option.some_orElse]

theorem c1_indicator_order_amended_witness :
    (∀ p ∈ errorIndicators.take 9, strContains (strLower c1Response.text) p.1 = false) ∧
    strContains (strLower c1Response.text) "apache/" = true ∧
    isBypass c1Baseline c1Response =
      ⟨true, "Backend exposed: \"apache/\" found in response", "MEDIUM"⟩ :=
  ⟨by decide, by decide,
   c1_indicator_order_amended c1Baseline c1Response (by decide) (by decide)
     (sizeRule_none_of_diff_zero _ _ (by decide)) (by decide) (by decide) (by decide)⟩

/-- C8 (counterexample): a 301 response with no `Location` header at all,
against a baseline whose stored location is non-empty, reaches rule 8 and is
*not* reported as a bypass (the code requires a non-empty response location),
contradicting the claim's "including the case where the response carries no
Location header". -/
theorem c8_redirect_counterexample :
    c8Response.status = 301 ∧
    psGetD c8Baseline.headers "location" "" = "http://internal.example/" ∧
    ciContains c8Response.headers "location" = false ∧
    isBypass c8Baseline c8Response = ⟨false, "Response identical to baseline", "INFO"⟩ := by
  have hs : sizeRule c8Baseline c8Response = none := sizeRule_none_of_diff_zero _ _ (by decide)
  refine ⟨rfl, by decide, by decide, ?_⟩
  simp only [isBypass, hs]
  decide

/-- C8 (amended): for a redirect response (301/302/307/308) that reaches
rule 8, `classify` reports bypass=true with severity MEDIUM exactly when the
response's `Location` value is non-empty and differs from the baseline's
stored location; in particular a response with no `Location` header never
triggers rule 8, even when the baseline's location is non-empty. -/
theorem c8_redirect_amended (b : Baseline) (r : Response)
    (h400 : r.status < 400)
    (hred : r.status = 301 ∨ r.status = 302 ∨ r.status = 307 ∨ r.status = 308)
    (h2 : authRule b r = none) (h3 : sizeRule b r = none) (h4 : hashRule b r = none)
    (h5 : indicatorRule r = none) (h6 : serverRule b r = none) (h7 : poweredByRule b r = none) :
    (ciGetD r.headers "location" "" ≠ "" ∧
        ciGetD r.headers "location" "" ≠ psGetD b.headers "location" "" →
      isBypass b r = ⟨true, "Different redirect: " ++ ciGetD r.headers "location" "", "MEDIUM"⟩) ∧
    (¬ (ciGetD r.headers "location" "" ≠ "" ∧
        ciGetD r.headers "location" "" ≠ psGetD b.headers "location" "") →
      isBypass b r = ⟨false, "Response identical to baseline", "INFO"⟩) := by
  have h1 : ¬ r.status ≥ 400 := by omega
  constructor
  · intro hc
    have h8 : redirectRule b r =
        some ⟨true, "Different redirect: " ++ ciGetD r.headers "location" "", "MEDIUM"⟩ := by
      unfold redirectRule
      rw [if_pos hred]
      dsimp only
      rw [if_pos hc]
    simp only [isBypass, if_neg h1, h2, h3, h4, h5, h6, h7, Option.none_orElse, h8,
      Option.some_orElse]
  · intro hc
    have h8 : redirectRule b r = none := by
      unfold redirectRule
      rw [if_pos hred]
      dsimp only
      rw [if_neg hc]
    simp only [isBypass, if_neg h1, h2, h3, h4, h5, h6, h7, h8, Option.none_orElse]

theorem c8_redirect_amended_witness :
    (ciGetD c8WitResponse.headers "location" "" ≠ "" ∧
      ciGetD c8WitResponse.headers "location" "" ≠ psGetD c8WitBaseline.headers "location" "") ∧
    isBypass c8WitBaseline c8WitResponse =
      ⟨true, "Different redirect: " ++ ciGetD c8WitResponse.headers "location" "", "MEDIUM"⟩ :=
  ⟨by decide,
   (c8_redirect_amended c8WitBaseline c8WitResponse (by decide) (by decide) (by decide)
      (sizeRule_none_of_diff_zero _ _ (by decide)) (by decide) (by decide) (by decide)
      (by decide)).1 (by decide)⟩

/-- C4 (counterexample): a variant whose transport call fails on attempt 0
with a retryable network error but succeeds from attempt 1 on - well within
the baseline's retry bound of 3, under which the retry wrapper would succeed -
still yields no ProbeResult: `_test_request` issues a single un-retried
`safe_request` call and skips the variant on its first failure. -/
theorem c4_variant_retry_counterexample :
    c4Attempts 0 = .error (.connectionError "connection refused") ∧
    isNetworkError (handleRequestErrors (.connectionError "connection refused")) = true ∧
    c4Attempts 1 = .ok c4SuccessResponse ∧
    (retryCall (fun n => safeRequest (c4Attempts n)) isNetworkError (1 / 2 : ℚ) 3).1 =
      .ok c4SuccessResponse ∧
    testRequest c4Baseline c4Variant c4Attempts = none := by
  refine ⟨rfl, by decide, rfl, by decide, by decide⟩

/-- C4 (amended): each per-variant request goes through the error-mapping
layer with a single attempt and no retry: a variant whose transport call
fails on its first attempt is silently skipped at once, even when a later
attempt would have succeeded; only the baseline request is wrapped in the
bounded-backoff retry. -/
theorem c4_no_variant_retry (b : Baseline) (v : Variant)
    (attempts : Nat → Except TransportExc Response) (e : TransportExc)
    (h : attempts 0 = .error e) :
    testRequest b v attempts = none := by
  unfold testRequest safeRequest
  rw [h]

theorem c4_no_variant_retry_witness :
    c4Attempts 0 = .error (.connectionError "connection refused") ∧
    testRequest c4Baseline c4Variant c4Attempts = none :=
  ⟨rfl, c4_no_variant_retry c4Baseline c4Variant c4Attempts _ rfl⟩

theorem cons_wait_range (backoff : ℚ) (attempt k : Nat) :
    backoff * 2 ^ attempt :: ((List.range k).map fun i => backoff * 2 ^ (attempt + 1 + i)) =
      (List.range (k + 1)).map fun i => backoff * 2 ^ (attempt + i) := by
  rw [List.range_succ_eq_map, List.map_cons, List.map_map]
  rw [Nat.add_zero]
  congr 1
  apply List.map_congr_left
  intro i _
  simp only [Function.comp_apply]
  congr 2
  omega

theorem retryAux_ok {ε α : Type} (f : Nat → Except ε α) (retryable : ε → Bool) (backoff : ℚ)
    (m : Nat) (a : α) (errs : Nat → ε) :
    ∀ (k attempt fuel : Nat) (last : Option ε),
      attempt + fuel = m →
      (∀ i, i < k → f (attempt + i) = .error (errs (attempt + i)) ∧
        retryable (errs (attempt + i)) = true) →
      k < fuel → f (attempt + k) = .ok a →
      retryAux f retryable backoff m attempt fuel last =
        (.ok a, (List.range k).map fun i => backoff * 2 ^ (attempt + i)) := by
  intro k
  induction k with
  | zero =>
      intro attempt fuel last hm hfail hlt hok
      obtain ⟨n, rfl⟩ : ∃ n, fuel = n + 1 := ⟨fuel - 1, by omega⟩
      rw [Nat.add_zero] at hok
      simp only [retryAux, hok, List.range_zero, List.map_nil]
  | succ k ih =>
      intro attempt fuel last hm hfail hlt hok
      obtain ⟨n, rfl⟩ : ∃ n, fuel = n + 1 := ⟨fuel - 1, by omega⟩
      have h0 := hfail 0 (Nat.succ_pos k)
      rw [Nat.add_zero] at h0
      have hfail' : ∀ i, i < k → f (attempt + 1 + i) = .error (errs (attempt + 1 + i)) ∧
          retryable (errs (attempt + 1 + i)) = true := by
        intro i hi
        have := hfail (i + 1) (by omega)
        rwa [show attempt + (i + 1) = attempt + 1 + i by omega] at this
      have hok' : f (attempt + 1 + k) = .ok a := by
        rwa [show attempt + (k + 1) = attempt + 1 + k by omega] at hok
      have hrest := ih (attempt + 1) n (some (errs attempt)) (by omega) hfail' (by omega) hok'
      simp only [retryAux, h0.1, h0.2, if_true]
      rw [if_pos (show attempt < m - 1 by omega)]
      rw [hrest]
      rw [List.singleton_append]
      exact congrArg _ (cons_wait_range backoff attempt k)

theorem retryAux_exhaust {ε α : Type} (f : Nat → Except ε α) (retryable : ε → Bool)
    (backoff : ℚ) (m : Nat) (errs : Nat → ε) :
    ∀ (fuel attempt : Nat) (last : Option ε),
      attempt + fuel = m → 0 < fuel →
      (∀ i, attempt ≤ i → i < m → f i = .error (errs i) ∧ retryable (errs i) = true) →
      retryAux f retryable backoff m attempt fuel last =
        (.raised (errs (m - 1)), (List.range (fuel - 1)).map fun i => backoff * 2 ^ (attempt + i)) := by
  intro fuel
  induction fuel with
  | zero =>
      intro attempt last hm h0 hfail
      omega
  | succ n ih =>
      intro attempt last hm _ hfail
      have h0 := hfail attempt le_rfl (by omega)
      simp only [retryAux, h0.1, h0.2, if_true]
      cases n with
      | zero =>
          rw [if_neg (show ¬ attempt < m - 1 by omega)]
          simp only [retryAux, List.nil_append]
          rw [show attempt = m - 1 by omega]
          simp
      | succ n' =>
          rw [if_pos (show attempt < m - 1 by omega)]
          rw [ih (attempt + 1) (some (errs attempt)) (by omega) (by omega)
            (fun i hi1 hi2 => hfail i (by omega) hi2)]
          rw [List.singleton_append]
          refine congrArg _ ?_
          simp only [Nat.add_sub_cancel]
          exact cons_wait_range backoff attempt n'

/-- C7: the retry wrapper with retryable set `retryable`: a callable failing
with retryable errors on its first `k < max_retries` invocations and
succeeding on the next one returns that success value; a callable failing
with retryable errors on all `max_retries` invocations re-raises the last
exception unchanged; and the wait before retry attempt `attempt + 1` is
`backoff_factor * 2 ^ attempt` (the full wait lists are
`backoff * 2 ^ i` for `i` below the number of non-final failed attempts). -/
theorem c7_retry_wrapper {ε α : Type} (f : Nat → Except ε α) (retryable : ε → Bool)
    (backoff : ℚ) (m k : Nat) (a : α) (errs : Nat → ε) :
    ((∀ i < k, f i = .error (errs i) ∧ retryable (errs i) = true) → k < m → f k = .ok a →
      retryCall f retryable backoff m =
        (.ok a, (List.range k).map fun i => backoff * 2 ^ i)) ∧
    ((∀ i < m, f i = .error (errs i) ∧ retryable (errs i) = true) → 0 < m →
      retryCall f retryable backoff m =
        (.raised (errs (m - 1)), (List.range (m - 1)).map fun i => backoff * 2 ^ i)) := by
  constructor
  · intro hfail hlt hok
    have h := retryAux_ok f retryable backoff m a errs k 0 m none (Nat.zero_add m)
      (fun i hi => by simpa using hfail i hi) hlt (by simpa using hok)
    unfold retryCall
    simpa using h
  · intro hfail hm
    have h := retryAux_exhaust f retryable backoff m errs m 0 none (Nat.zero_add m) hm
      (fun i _ hi => hfail i hi)
    unfold retryCall
    simpa using h

theorem c7_retry_wrapper_witness :
    ((∀ i < 2, c7FlakyCalls i = .error (c7FlakyErrs i) ∧ isNetworkError (c7FlakyErrs i) = true) ∧
      2 < 4 ∧ c7FlakyCalls 2 = .ok c7Response ∧
      retryCall c7FlakyCalls isNetworkError (1 / 2 : ℚ) 4 =
        (.ok c7Response, (List.range 2).map fun i => (1 / 2 : ℚ) * 2 ^ i)) ∧
    ((∀ i < 3, c7FailCalls i = .error (c7FailErrs i) ∧ isNetworkError (c7FailErrs i) = true) ∧
      0 < 3 ∧
      retryCall c7FailCalls isNetworkError (1 / 2 : ℚ) 3 =
        (.raised (c7FailErrs (3 - 1)), (List.range (3 - 1)).map fun i => (1 / 2 : ℚ) * 2 ^ i)) :=
  ⟨⟨by decide, by decide, by decide,
    (c7_retry_wrapper c7FlakyCalls isNetworkError (1 / 2 : ℚ) 4 2 c7Response c7FlakyErrs).1
      (by decide) (by decide) (by decide)⟩,
   ⟨by decide, by decide,
    (c7_retry_wrapper c7FailCalls isNetworkError (1 / 2 : ℚ) 3 0 c7Response c7FailErrs).2
      (by decide) (by decide)⟩⟩

/-- C5 (counterexample): when every baseline attempt fails with connection
refused, `scan()` raises `TargetUnreachableError`, not `BaselineFailed`: the
mapped `TargetUnreachableError` survives the retry wrapper and `scan`'s
`except TargetUnreachableError: raise` re-raises it before the generic
wrap-into-`BaselineFailedError` clause. -/
theorem c5_baseline_counterexample :
    (∀ n < 3, c5RefusedAttempts n = .error (.connectionError "connection refused")) ∧
    scanBaselinePhase c5RefusedAttempts = .error .targetUnreachable ∧
    scanBaselinePhase c5RefusedAttempts ≠ .error .baselineFailed := by
  refine ⟨by decide, by decide, by decide⟩

/-- C5 (amended): if every baseline attempt fails with an error mapped into
the retryable `NetworkError` family, `scan()` raises `TargetUnreachableError`
when the final attempt's mapped error is `TargetUnreachableError` (e.g.
connection refused), and wraps any other final failure (e.g. timeout) into
`BaselineFailedError`. -/
theorem c5_baseline_failure_mapped (attempts : Nat → Except TransportExc Response)
    (failures : Nat → TransportExc)
    (hfail : ∀ n < 3, attempts n = .error (failures n))
    (hnet : ∀ n < 3, isNetworkError (handleRequestErrors (failures n)) = true) :
    scanBaselinePhase attempts =
      .error (if handleRequestErrors (failures 2) = .targetUnreachable then .targetUnreachable
              else .baselineFailed) := by
  have h0 := hfail 0 (by omega)
  have h1 := hfail 1 (by omega)
  have h2 := hfail 2 (by omega)
  have n0 := hnet 0 (by omega)
  have n1 := hnet 1 (by omega)
  have n2 := hnet 2 (by omega)
  have hret : (getBaseline attempts).1 = .raised (handleRequestErrors (failures 2)) := by
    show (retryAux (fun n => safeRequest (attempts n)) isNetworkError (1 / 2 : ℚ) 3 0
      (Nat.succ (Nat.succ (Nat.succ Nat.zero))) none).1 = _
    simp only [retryAux, safeRequest, h0, h1, h2, n0, n1, n2, if_true]
  unfold scanBaselinePhase
  rw [hret]
  rcases handleRequestErrors (failures 2) <;> rfl

theorem c5_baseline_failure_mapped_witness :
    (∀ n < 3, c5TimeoutAttempts n = .error (c5TimeoutFailures n)) ∧
    (∀ n < 3, isNetworkError (handleRequestErrors (c5TimeoutFailures n)) = true) ∧
    scanBaselinePhase c5TimeoutAttempts =
      .error (if handleRequestErrors (c5TimeoutFailures 2) = .targetUnreachable
              then .targetUnreachable else .baselineFailed) ∧
    scanBaselinePhase c5TimeoutAttempts = .error .baselineFailed :=
  ⟨by decide, by decide,
   c5_baseline_failure_mapped c5TimeoutAttempts c5TimeoutFailures (by decide) (by decide),
   by decide⟩

/-- C9: every element of the list `scan()` returns has bypass=true, a
non-empty reason, and a severity within the fixed four-value set; non-bypass
classifications never enter the returned list (each technique filters on
`result['bypass']`). -/
theorem c9_results_invariant (b : Baseline) (env : Variant → Nat → Except TransportExc Response)
    (techniques : List (List Variant)) (res : ProbeResult)
    (hmem : res ∈ scanResults b env techniques) :
    res.bypass = true ∧ res.reason ≠ "" ∧
    res.severity ∈ ["CRITICAL", "HIGH", "MEDIUM", "INFO"] := by
  unfold scanResults at hmem
  rw [List.mem_flatten] at hmem
  obtain ⟨l, hl, hres⟩ := hmem
  rw [List.mem_map] at hl
  obtain ⟨vs, -, rfl⟩ := hl
  unfold runTechnique at hres
  rw [List.mem_filter] at hres
  obtain ⟨hres, hbyp⟩ := hres
  rw [List.mem_filterMap] at hres
  obtain ⟨v, -, hsome⟩ := hres
  unfold testRequest at hsome
  rcases hsr : safeRequest (env v 0) with e | resp
  · rw [hsr] at hsome
    exact Option.noConfusion hsome
  · rw [hsr] at hsome
    dsimp only at hsome
    obtain rfl := Option.some.inj hsome
    obtain ⟨hsev, himp⟩ := isBypass_fields b resp
    dsimp only at hbyp ⊢
    exact ⟨hbyp, himp hbyp, hsev⟩

theorem c9_results_invariant_witness :
    c9Result ∈ scanResults c9Baseline c9Env c9Techniques ∧
    (c9Result.bypass = true ∧ c9Result.reason ≠ "" ∧
      c9Result.severity ∈ ["CRITICAL", "HIGH", "MEDIUM", "INFO"]) :=
  ⟨by decide, c9_results_invariant c9Baseline c9Env c9Techniques c9Result (by decide)⟩

end WAFPierce
